import Mathlib

/-!
Shallow embedding of the mwhr-backend application lifecycle and certificate
issuance engine (FastAPI/SQLModel service).  Pure Lean translations of:

* `app/models/application.py` — the `Application` record, its status enum and
  certificate-type enum;
* `app/services/security_service.py` — Crockford base-32 encoding, security
  token and certificate number generation;
* `app/services/otp_store.py` — the in-memory OTP / verification-token store;
* `app/api/v1/endpoints/admin.py` — `update_application_status`,
  `assign_application`;
* `app/api/v1/endpoints/applications.py` — `update_application`,
  `verify_certificate`, `verify_otp_code`, `renew_application`.

Conventions of the embedding:
* timestamps are natural numbers (days for certificate expiry, minutes for the
  OTP store); `datetime.utcnow()` becomes an explicit `now` argument;
* random / cryptographic inputs (HMAC digest, fresh uuid4, fresh url-safe
  token) become explicit arguments, since the source draws them from entropy;
* an endpoint that raises `HTTPException` is a function into
  `Except HTTPException α`; an `error` result models the rolled-back
  transaction, so the stored record is unchanged in every failure case;
* Python truthiness on nullable columns (`if application.assigned_to`,
  `if not application.certificate_number`) is translated exactly: `None`,
  `0` and `""` are falsy;
* the audit-log and notification side effects touch other tables only and are
  not part of any claim, so they are omitted from the state.
-/

inductive ApplicationStatus
  | draft
  | submitted
  | pending_payment
  | in_review
  | approved
  | rejected
  | cancelled
  | suspended
deriving DecidableEq, Repr

/-- The persisted string value of a status (`ApplicationStatus(str, Enum)`). -/
def statusValue : ApplicationStatus → String
  | .draft => "draft"
  | .submitted => "submitted"
  | .pending_payment => "pending_payment"
  | .in_review => "in_review"
  | .approved => "approved"
  | .rejected => "rejected"
  | .cancelled => "cancelled"
  | .suspended => "suspended"

/-- Strict deserialization of a status string, `ApplicationStatus(new_status_str)`:
an unknown value is rejected (`ValueError` in the source). -/
def statusOfString (s : String) : Option ApplicationStatus :=
  if s = "draft" then some .draft
  else if s = "submitted" then some .submitted
  else if s = "pending_payment" then some .pending_payment
  else if s = "in_review" then some .in_review
  else if s = "approved" then some .approved
  else if s = "rejected" then some .rejected
  else if s = "cancelled" then some .cancelled
  else if s = "suspended" then some .suspended
  else none

inductive CertificateType
  | electrical
  | building
  | plumbing
  | civil
deriving DecidableEq, Repr

def certTypeValue : CertificateType → String
  | .electrical => "electrical"
  | .building => "building"
  | .plumbing => "plumbing"
  | .civil => "civil"

/-- Mirror of `fastapi.HTTPException(status_code=..., detail=...)`. -/
structure HTTPException where
  status_code : Nat
  detail : String
deriving DecidableEq, Repr

/-- The `Application` table row (`app/models/application.py`).  UUIDs are
modelled as natural numbers.  `internal_uid` is kept nullable because the
source guards it with `if not application.internal_uid`. -/
structure Application where
  id : Nat
  certificate_type : CertificateType
  certificate_class : Option String
  description : Option String
  status : ApplicationStatus
  current_step : Nat
  expiry_date : Option Nat
  issued_date : Option Nat
  certificate_number : Option String
  internal_uid : Option Nat
  security_token : Option String
  user_id : Option Nat
  assigned_to : Option Nat
deriving DecidableEq, Repr

/-- Python truthiness of a nullable integer column: `None` and `0` are falsy. -/
def intTruthy : Option Nat → Bool
  | none => false
  | some n => n != 0

/-- Python truthiness of a nullable string column: `None` and `""` are falsy. -/
def strTruthy : Option String → Bool
  | none => false
  | some s => s != ""

/-! ### SecurityService (`app/services/security_service.py`) -/

/-- Source `SecurityService.ALPHABET`: Crockford base 32, I, L, O, U excluded. -/
def ALPHABET : String := "0123456789ABCDEFGHJKMNPQRSTVWXYZ"

def alphabetList : List Char := ALPHABET.toList

/-- Lookup `SecurityService.ALPHABET[rem]` for `rem = num % 32`. -/
def alphabetChar (r : Nat) : Char := alphabetList.getD r '0'

/-- Structural helper for `_encode_base32_crockford`; the first argument is
recursion fuel (any value at least `num` gives the same result, see
`encB32Go_fuel`). -/
def encB32Go : Nat → Nat → List Char
  | _, 0 => []
  | 0, _ + 1 => []
  | fuel + 1, num + 1 =>
      encB32Go fuel ((num + 1) / 32) ++ [alphabetChar ((num + 1) % 32)]

/-- Function `_encode_base32_crockford`: repeated `divmod(num, 32)`, least significant
digit produced first and the digit list reversed, empty output for 0. -/
def encB32 (num : Nat) : List Char := encB32Go num num

def encodeBase32Crockford (num : Nat) : String := ⟨encB32 num⟩

/-- Python `str.rjust(15, "0")` on the character list. -/
def rjust15 (l : List Char) : List Char :=
  if l.length < 15 then List.replicate (15 - l.length) '0' ++ l else l

/-- The 15 raw symbols of `generate_token` before hyphenation: encode the HMAC
digest (given here as the abstract `digest` number), right-justify to 15 with
zeros if short, then take the first 15 characters. -/
def tokenChars (digest : Nat) : List Char :=
  (rjust15 (encB32 digest)).take 15

/-- Function `SecurityService.generate_token`, with the HMAC-SHA256 output abstracted
into the `digest` argument (its inputs — uuid, timestamp, fresh entropy and the
server secret — are all absorbed by that argument).
Result format: `XXXXX-XXXXX-XXXXX`. -/
def generate_token (digest : Nat) : String :=
  let f := tokenChars digest
  ⟨f.take 5⟩ ++ "-" ++ ⟨(f.drop 5).take 5⟩ ++ "-" ++ ⟨(f.drop 10).take 5⟩

/-- Python `datetime.utcnow().strftime("%y")`: the year modulo 100, zero padded to
two decimal digits. -/
def yearSuffix (year : Nat) : String :=
  ⟨[Char.ofNat (48 + (year % 100) / 10), Char.ofNat (48 + year % 100 % 10)]⟩

structure CertData where
  full_number : String
  token : String
  year : String
  cls : String
deriving DecidableEq, Repr

/-- Function `SecurityService.generate_certificate_number`.  `cert_class if cert_class
else "XX"` is Python truthiness: both `None` and the empty string fall back to
the sentinel `"XX"`. -/
def generate_certificate_number (cert_class : Option String) (year : Nat)
    (digest : Nat) : CertData :=
  let year_suffix := yearSuffix year
  let token := generate_token digest
  let cls := if strTruthy cert_class then cert_class.getD "XX" else "XX"
  { full_number := "MWHWR-" ++ cls ++ "-" ++ year_suffix ++ "-" ++ token
    token := token
    year := year_suffix
    cls := cls }

/-! ### OTPStore (`app/services/otp_store.py`)

Time is measured in minutes.  The two Python dicts are association lists with
dict-update modelled as cons-after-delete, which preserves lookup semantics. -/

structure OTPData where
  otp : String
  expires_at : Nat
deriving DecidableEq, Repr

structure TokenData where
  phone_number : String
  expires_at : Nat
deriving DecidableEq, Repr

structure OTPStore where
  otps : List (String × OTPData)
  verified_tokens : List (String × TokenData)
deriving DecidableEq, Repr

/-- Helper for `del d[k]` / dict overwrite helper on an association list. -/
def removeKey {α : Type} (k : String) : List (String × α) → List (String × α)
  | [] => []
  | (k2, v) :: rest =>
      if k2 = k then removeKey k rest else (k2, v) :: removeKey k rest

/-- Method `OTPStore.generate_otp`: store the freshly generated 6-digit code under the
phone number with a 5-minute expiry, overwriting any prior code.  The random
code is the `otp` argument. -/
def generate_otp (store : OTPStore) (phone_number otp : String) (now : Nat) :
    OTPStore :=
  { store with
      otps := (phone_number, { otp := otp, expires_at := now + 5 })
                :: removeKey phone_number store.otps }

/-- Method `OTPStore.verify_otp`: returns the minted verification token (or `none`)
together with the updated store.  The fresh url-safe token is the `freshToken`
argument. -/
def verify_otp (store : OTPStore) (phone_number otp : String) (now : Nat)
    (freshToken : String) : Option String × OTPStore :=
  match store.otps.lookup phone_number with
  | none => (none, store)
  | some data =>
    if now > data.expires_at then
      (none, { store with otps := removeKey phone_number store.otps })
    else if data.otp ≠ otp then
      (none, store)
    else
      (some freshToken,
        { otps := removeKey phone_number store.otps
          verified_tokens :=
            (freshToken,
              { phone_number := phone_number, expires_at := now + 15 })
              :: removeKey freshToken store.verified_tokens })

/-- Method `OTPStore.is_token_valid`: validity flag plus the updated store (an expired
token is deleted on the failed check). -/
def is_token_valid (store : OTPStore) (token : String) (now : Nat) :
    Bool × OTPStore :=
  match store.verified_tokens.lookup token with
  | none => (false, store)
  | some data =>
    if now > data.expires_at then
      (false,
        { store with verified_tokens := removeKey token store.verified_tokens })
    else
      (true, store)

/-- Endpoint `POST /public/otp/verify` (`verify_otp_code` in
`applications.py`): a `none` from the store becomes HTTP 400. -/
def verify_otp_code (store : OTPStore) (phone_number otp : String) (now : Nat)
    (freshToken : String) : Except HTTPException (String × OTPStore) :=
  match verify_otp store phone_number otp now freshToken with
  | (none, _) => .error ⟨400, "Invalid or expired OTP"⟩
  | (some token, store2) => .ok (token, store2)

/-! ### Public certificate verification (`applications.py`) -/

/-- The `CompanyInfo` table row (`app/models/company_info.py`). -/
structure CompanyInfo where
  company_name : String
  registration_number : Option String
  address : Option String
  city : Option String
  country : Option String
  phone_number : Option String
  email : Option String
  application_id : Nat
deriving DecidableEq, Repr

structure ApplicationVerifyResponse where
  id : Nat
  status : String
  certificate_type : String
  company_name : String
  expiry_date : Option Nat
  company_address : Option String
deriving DecidableEq, Repr

/-- Python `str.isdigit()`: non-empty and all decimal digits. -/
def strIsDigit (s : String) : Bool :=
  !s.toList.isEmpty && s.toList.all (fun c => c.isDigit)

/-- Python `int(s)` on a digit string (leading zeros included). -/
def strToNat (s : String) : Nat :=
  s.toList.foldl (fun n c => n * 10 + (c.toNat - 48)) 0

/-- One disjunct set of the `or_` filter in `verify_certificate`: certificate
number, security token, or — when the identifier is purely numeric — the
record id (`identifier.isdigit()` is false on the empty string). -/
def matchesIdentifier (a : Application) (identifier : String) : Bool :=
  a.certificate_number == some identifier
    || a.security_token == some identifier
    || (strIsDigit identifier && a.id == strToNat identifier)

/-- The statuses `verify_certificate` will disclose. -/
def allowedVerifyStatuses : List ApplicationStatus :=
  [.approved, .suspended, .cancelled, .rejected]

/-- Endpoint `GET /public/verify/{identifier}` (`verify_certificate`).  The
database is the list of application rows (`first()` of the filtered query is
the first list element matching the identifier) together with the company-info
rows keyed by `application_id`. -/
def verify_certificate (identifier token : String) (store : OTPStore)
    (now : Nat) (db : List Application) (companies : List CompanyInfo) :
    Except HTTPException ApplicationVerifyResponse :=
  if (is_token_valid store token now).1 = false then
    .error ⟨401, "Verification session expired. Please verify phone number again."⟩
  else
    match db.find? (fun a => matchesIdentifier a identifier) with
    | none => .error ⟨404, "Certificate not found"⟩
    | some application =>
      if application.status ∉ allowedVerifyStatuses then
        .error ⟨404, "Certificate not found or not valid"⟩
      else
        let ci := companies.find? (fun c => c.application_id == application.id)
        .ok { id := application.id
              status := statusValue application.status
              certificate_type := certTypeValue application.certificate_type
              company_name :=
                match ci with
                | some c => c.company_name
                | none => "Unknown"
              expiry_date := application.expiry_date
              company_address :=
                match ci with
                | some c => c.address
                | none => some "Unknown" }

/-! ### Applicant-facing application update (`applications.py`) -/

/-- The `ApplicationUpdate` payload; `none` is an unset field
(`dict(exclude_unset=True)` in the source). -/
structure ApplicationUpdate where
  certificate_type : Option CertificateType := none
  certificate_class : Option String := none
  description : Option String := none
  status : Option String := none
  current_step : Option Nat := none
deriving DecidableEq, Repr

/-- Endpoint `PATCH /{id}` (`update_application`).  The caller is identified by
`currentUserId` / `isSuperuser`; the three `has*` flags are the results of the
three completeness queries (`first()` non-null) keyed by the application id.
On transition to SUBMITTED the completeness gate raises before the commit, so
an `error` leaves the stored record unchanged. -/
def update_application (a : Application) (upd : ApplicationUpdate)
    (currentUserId : Nat) (isSuperuser : Bool)
    (hasCompanyInfo hasDirectors hasDocuments : Bool) :
    Except HTTPException Application :=
  if isSuperuser = false ∧ a.user_id ≠ some currentUserId then
    .error ⟨400, "Not enough permissions"⟩
  else
    let old_status := a.status
    let statusResult : Except HTTPException ApplicationStatus :=
      match upd.status with
      | none => .ok a.status
      | some s =>
        -- `if new_status_str:` — the empty string is falsy and skipped
        if s = "" then .ok a.status
        else
          match statusOfString s with
          | some st => .ok st
          | none => .error ⟨400, "Invalid status: " ++ s⟩
    match statusResult with
    | .error e => .error e
    | .ok newStatus =>
      let a2 : Application :=
        { a with
            status := newStatus
            certificate_type :=
              match upd.certificate_type with
              | some t => t
              | none => a.certificate_type
            certificate_class :=
              match upd.certificate_class with
              | some c => some c
              | none => a.certificate_class
            description :=
              match upd.description with
              | some d => some d
              | none => a.description
            current_step :=
              match upd.current_step with
              | some n => n
              | none => a.current_step }
      if a2.status = .submitted ∧ old_status ≠ .submitted then
        if hasCompanyInfo = false then
          .error ⟨400, "Cannot submit: Company Information is missing."⟩
        else if hasDirectors = false then
          .error ⟨400, "Cannot submit: Directors Information is missing."⟩
        else if hasDocuments = false then
          .error ⟨400, "Cannot submit: Supporting Documents are missing."⟩
        else .ok a2
      else .ok a2

/-! ### Reviewer status update and assignment (`admin.py`) -/

/-- A single apostrophe (kept out of string literals). -/
def apos : String := ⟨[Char.ofNat 39]⟩

/-- The f-string detail of the invalid-transition rejection: the status is
rendered by its enum value. -/
def invalidTransitionDetail (s : ApplicationStatus) : String :=
  "Cannot approve an incomplete application. Current status is "
    ++ apos ++ statusValue s ++ apos ++ ". Application must be submitted first."

/-- Endpoint `PATCH /applications/{id}/status` (`update_application_status`).
`now` and `year` stand for `datetime.utcnow()` (days / calendar year), `digest`
for the HMAC output behind `generate_token`, `freshUid` for `uuid.uuid4()`.
Checks, in source order: assignment held by another admin (403), not assigned
(400), approval from a status outside SUBMITTED/IN_REVIEW/SUSPENDED (400);
then the mutation, with the approval block refreshing `expiry_date`, setting
`issued_date` and `internal_uid` only when previously null, and generating
`certificate_number`/`security_token` only when `certificate_number` is falsy
(null or empty). -/
def update_application_status (a : Application) (status : ApplicationStatus)
    (currentUserId now year digest freshUid : Nat) :
    Except HTTPException Application :=
  if intTruthy a.assigned_to = true ∧ a.assigned_to ≠ some currentUserId then
    .error ⟨403, "This application is assigned to another admin."⟩
  else if intTruthy a.assigned_to = false then
    .error ⟨400, "Please assign this application to yourself before taking action."⟩
  else if status = .approved
      ∧ a.status ∉ [ApplicationStatus.submitted, .in_review, .suspended] then
    .error ⟨400, invalidTransitionDetail a.status⟩
  else
    let a1 := { a with status := status }
    if status = .approved then
      let a2 := { a1 with expiry_date := some (now + 365) }
      let a3 :=
        if a2.issued_date = none then { a2 with issued_date := some now } else a2
      let a4 :=
        if a3.internal_uid = none then { a3 with internal_uid := some freshUid }
        else a3
      let a5 :=
        if strTruthy a4.certificate_number = false then
          let sec := generate_certificate_number a4.certificate_class year digest
          { a4 with
              certificate_number := some sec.full_number
              security_token := some sec.token }
        else a4
      .ok a5
    else .ok a1

/-- Endpoint `POST /applications/{id}/assign` (`assign_application`): blocked
when held by a different admin unless the caller is a superuser; otherwise the
application is assigned to the caller. -/
def assign_application (a : Application) (currentUserId : Nat)
    (isSuperuser : Bool) : Except HTTPException Application :=
  if intTruthy a.assigned_to = true ∧ a.assigned_to ≠ some currentUserId then
    if isSuperuser = false then
      .error ⟨400, "Application is already assigned to another admin."⟩
    else .ok { a with assigned_to := some currentUserId }
  else .ok { a with assigned_to := some currentUserId }

/-! ### Renewal (`applications.py`, `renew_application`) -/

/-- The `Application(...)` constructor call inside `renew_application`: fields
not passed take the model defaults (`internal_uid` from `uuid.uuid4`, here
`freshUid`; `id` from the database, here `newId`). -/
def renewal_draft (original : Application) (newId uid freshUid : Nat) :
    Application :=
  { id := newId
    certificate_type := original.certificate_type
    certificate_class := original.certificate_class
    description := some ("Renewal of Application #" ++ toString original.id)
    status := .draft
    current_step := 4
    expiry_date := none
    issued_date := none
    certificate_number := none
    internal_uid := some freshUid
    security_token := none
    user_id := some uid
    assigned_to := none }

/-- Endpoint `POST /{id}/renew` (`renew_application`), over the application
table given as a list of rows.  Returns the committed application rows together
with the HTTP outcome.  The new draft row is committed first (to obtain its
id); cloning company info then reads the attributes `phone` and
`business_type`, which do not exist on the `CompanyInfo` model, so when the
original has company info the endpoint dies with an uncaught `AttributeError`
(HTTP 500) — after the new row is already committed.  Director clones live in
the director table only and are not part of the returned application state. -/
def renew_application (db : List Application) (appId currentUserId : Nat)
    (newId freshUid : Nat) (companies : List CompanyInfo) :
    List Application × Except HTTPException Application :=
  match db.find? (fun a => a.id == appId) with
  | none => (db, .error ⟨404, "Application not found"⟩)
  | some original_app =>
    if original_app.user_id ≠ some currentUserId then
      (db, .error ⟨403, "Not enough permissions"⟩)
    else if original_app.status ≠ .approved then
      (db, .error ⟨400, "Only approved applications can be renewed."⟩)
    else
      let new_app := renewal_draft original_app newId currentUserId freshUid
      let db2 := db ++ [new_app]
      match companies.find? (fun c => c.application_id == original_app.id) with
      | some _ => (db2, .error ⟨500, "AttributeError"⟩)
      | none => (db2, .ok new_app)

/-! ### Sample rows used by the concrete witnesses -/

/-- A submitted application owned by user 7, not yet assigned. -/
def sampleApp : Application :=
  { id := 1
    certificate_type := .electrical
    certificate_class := some "A"
    description := none
    status := .submitted
    current_step := 7
    expiry_date := none
    issued_date := none
    certificate_number := none
    internal_uid := some 11
    security_token := none
    user_id := some 7
    assigned_to := none }

/-- An already-issued application: assigned to admin 2, certificate number and
security token set, issued on day 10, currently suspended. -/
def issuedApp : Application :=
  { id := 42
    certificate_type := .building
    certificate_class := some "A"
    description := none
    status := .suspended
    current_step := 7
    expiry_date := some 300
    issued_date := some 10
    certificate_number := some "MWHWR-A-25-00000-00000-00011"
    internal_uid := some 11
    security_token := some "00000-00000-00011"
    user_id := some 7
    assigned_to := some 2 }

/-- Row `sampleApp` still in DRAFT. -/
def draftApp : Application := { sampleApp with status := .draft }

/-- Row `issuedApp` back in good standing. -/
def approvedApp : Application := { issuedApp with status := .approved }

/-- A one-entry OTP store: a code for one phone number and one verification
token, both minted at minute 0. -/
def sampleStore : OTPStore :=
  { otps := [("0551234567", { otp := "123456", expires_at := 5 })]
    verified_tokens := [("tok", { phone_number := "0551234567", expires_at := 15 })] }

/-! ## Lemmas about the base-32 encoder -/

theorem encB32Go_fuel (num : Nat) :
    ∀ f g, num ≤ f → num ≤ g → encB32Go f num = encB32Go g num := by
  induction num using Nat.strong_induction_on with
  | _ n ih =>
    intro f g hf hg
    match n, f, g, hf, hg with
    | 0, f, g, _, _ =>
        cases f <;> cases g <;> rfl
    | n + 1, f + 1, g + 1, hf, hg =>
        show encB32Go f ((n + 1) / 32) ++ _ = encB32Go g ((n + 1) / 32) ++ _
        have hlt : (n + 1) / 32 < n + 1 := Nat.div_lt_self (Nat.succ_pos n) (by norm_num)
        have h1 : (n + 1) / 32 ≤ f := Nat.le_of_lt_succ (Nat.lt_of_lt_of_le hlt hf)
        have h2 : (n + 1) / 32 ≤ g := Nat.le_of_lt_succ (Nat.lt_of_lt_of_le hlt hg)
        rw [ih _ hlt f g h1 h2]

theorem encB32_zero : encB32 0 = [] := rfl

theorem encB32_pos (num : Nat) (h : num ≠ 0) :
    encB32 num = encB32 (num / 32) ++ [alphabetChar (num % 32)] := by
  match num, h with
  | n + 1, _ =>
    show encB32Go n ((n + 1) / 32) ++ _ = _
    have hlt : (n + 1) / 32 < n + 1 := Nat.div_lt_self (Nat.succ_pos n) (by norm_num)
    rw [encB32Go_fuel ((n + 1) / 32) n ((n + 1) / 32) (Nat.le_of_lt_succ hlt) (Nat.le_refl _)]
    rfl

example : encodeBase32Crockford 0 = "" := by decide

example : encodeBase32Crockford 33 = "11" := by decide

example : generate_token 0 = "00000-00000-00000" := by decide

example : (generate_certificate_number (some "A") 2025 33).full_number =
    "MWHWR-A-25-00000-00000-00011" := by decide

theorem alphabetChar_mem (r : Nat) : alphabetChar r ∈ alphabetList := by
  rcases Nat.lt_or_ge r 32 with h | h
  · interval_cases r <;> decide
  · have hlen : alphabetList.length = 32 := by decide
    have h0 : alphabetChar r = '0' := by
      unfold alphabetChar
      apply List.getD_eq_default
      omega
    rw [h0]
    decide

theorem encB32_mem (num : Nat) : ∀ c ∈ encB32 num, c ∈ alphabetList := by
  induction num using Nat.strong_induction_on with
  | _ n ih =>
    by_cases h : n = 0
    · subst h
      rw [encB32_zero]
      simp
    · rw [encB32_pos n h]
      intro c hc
      rcases List.mem_append.mp hc with h1 | h2
      · exact ih (n / 32) (Nat.div_lt_self (Nat.pos_of_ne_zero h) (by norm_num)) c h1
      · have : c = alphabetChar (n % 32) := by simpa using h2
        rw [this]
        exact alphabetChar_mem _

theorem tokenChars_mem (digest : Nat) : ∀ c ∈ tokenChars digest, c ∈ alphabetList := by
  intro c hc
  have hc2 : c ∈ rjust15 (encB32 digest) := List.mem_of_mem_take hc
  unfold rjust15 at hc2
  split at hc2
  · rcases List.mem_append.mp hc2 with h1 | h2
    · rw [List.eq_of_mem_replicate h1]
      decide
    · exact encB32_mem _ c h2
  · exact encB32_mem _ c hc2

theorem tokenChars_length (digest : Nat) : (tokenChars digest).length = 15 := by
  unfold tokenChars rjust15
  split
  · rename_i h
    simp only [List.length_take, List.length_append, List.length_replicate]
    omega
  · rename_i h
    simp only [List.length_take]
    omega

theorem ofNat_digit_isDigit (d : Nat) (hd : d ≤ 9) :
    (Char.ofNat (48 + d)).isDigit = true := by
  interval_cases d <;> decide

/-! ## Reviewer status update: claims C1, C3, C5 -/

/-- Claim C3: for an application held by the acting reviewer whose current
status is outside SUBMITTED / IN_REVIEW / SUSPENDED, the reviewer status
update with target APPROVED fails with the invalid-transition rejection
(HTTP 400, the `InvalidTransition` case of the error taxonomy), and — the
endpoint raising before any write — the application record is not mutated. -/
theorem C3_approve_needs_submittable_status (a : Application)
    (uid now year digest freshUid : Nat)
    (hassigned : a.assigned_to = some uid) (huid : uid ≠ 0)
    (hstatus : a.status ∉ [ApplicationStatus.submitted, .in_review, .suspended]) :
    update_application_status a .approved uid now year digest freshUid
      = .error ⟨400, invalidTransitionDetail a.status⟩ := by
  unfold update_application_status
  rw [hassigned]
  simp [intTruthy, huid, hstatus]

theorem C3_witness :
    update_application_status { sampleApp with assigned_to := some 2, status := .draft }
        .approved 2 100 2025 33 9
      = .error ⟨400, invalidTransitionDetail .draft⟩ :=
  C3_approve_needs_submittable_status
    { sampleApp with assigned_to := some 2, status := .draft }
    2 100 2025 33 9 rfl (by decide) (by decide)

/-- Claim C5: a reviewer status update on an unassigned application fails with
the `NotAssigned` rejection (HTTP 400, self-assign first), and on an
application held by a different admin it fails with `Forbidden` (HTTP 403); in
both cases the endpoint raises before any write, so the status is unchanged.
(`other ≠ 0` reflects that Python treats the integer 0 as falsy; database ids
start at 1.) -/
theorem C5_requires_assignment (a : Application) (st : ApplicationStatus)
    (uid now year digest freshUid : Nat) :
    (a.assigned_to = none →
      update_application_status a st uid now year digest freshUid
        = .error ⟨400, "Please assign this application to yourself before taking action."⟩)
    ∧ (∀ other, a.assigned_to = some other → other ≠ 0 → other ≠ uid →
      update_application_status a st uid now year digest freshUid
        = .error ⟨403, "This application is assigned to another admin."⟩) := by
  constructor
  · intro h
    unfold update_application_status
    rw [h]
    simp [intTruthy]
  · intro other h h0 hne
    unfold update_application_status
    rw [h]
    simp [intTruthy, h0, hne]

theorem C5_witness :
    update_application_status sampleApp .approved 9 100 2025 33 9
      = .error ⟨400, "Please assign this application to yourself before taking action."⟩
    ∧ update_application_status issuedApp .approved 9 100 2025 33 9
      = .error ⟨403, "This application is assigned to another admin."⟩ :=
  ⟨(C5_requires_assignment sampleApp .approved 9 100 2025 33 9).1 rfl,
   (C5_requires_assignment issuedApp .approved 9 100 2025 33 9).2 2 rfl
     (by decide) (by decide)⟩

/-- Claim C1: re-approving an application whose certificate number is already
set (a successful status update to APPROVED by the assigned reviewer, from one
of the approvable statuses) leaves `certificate_number`, `security_token` and
`issued_date` unchanged, while `expiry_date` is recomputed to now + 365 days.
The hypotheses `c ≠ ""` and `issued_date = some d` hold for every application
the system can produce: the approval handler is the only writer of
`certificate_number` and it sets a non-empty number and `issued_date` in the
same write. -/
theorem C1_reapproval_idempotent (a : Application)
    (uid now year digest freshUid : Nat) (c : String) (d : Nat)
    (hassigned : a.assigned_to = some uid) (huid : uid ≠ 0)
    (hstatus : a.status ∈ [ApplicationStatus.submitted, .in_review, .suspended])
    (hcert : a.certificate_number = some c) (hc : c ≠ "")
    (hissued : a.issued_date = some d) :
    ∃ a2, update_application_status a .approved uid now year digest freshUid
        = .ok a2
      ∧ a2.certificate_number = some c
      ∧ a2.security_token = a.security_token
      ∧ a2.issued_date = some d
      ∧ a2.expiry_date = some (now + 365)
      ∧ a2.status = .approved := by
  by_cases hu : a.internal_uid = none
  · unfold update_application_status
    rw [hassigned]
    simp [intTruthy, huid, hstatus, hissued, hcert, hc, hu, strTruthy]
  · unfold update_application_status
    rw [hassigned]
    simp [intTruthy, huid, hstatus, hissued, hcert, hc, hu, strTruthy]

theorem C1_witness :
    ∃ a2, update_application_status issuedApp .approved 2 500 2025 33 9
        = .ok a2
      ∧ a2.certificate_number = some "MWHWR-A-25-00000-00000-00011"
      ∧ a2.security_token = issuedApp.security_token
      ∧ a2.issued_date = some 10
      ∧ a2.expiry_date = some (500 + 365)
      ∧ a2.status = .approved :=
  C1_reapproval_idempotent issuedApp 2 500 2025 33 9
    "MWHWR-A-25-00000-00000-00011" 10 rfl (by decide) (by decide) rfl
    (by decide) rfl

/-- Claim C8: for every certificate class and digest, the generated
certificate number has the exact shape
`MWHWR-{CLASS}-{YY}-{B5}-{B5}-{B5}`: the fixed prefix, the class (the
sentinel `XX` when the class is absent or empty), the two-decimal-digit year,
and three hyphen-separated blocks of five symbols, every symbol drawn from the
32-symbol Crockford alphabet `0123456789ABCDEFGHJKMNPQRSTVWXYZ`. -/
theorem C8_certificate_number_format (cert_class : Option String)
    (year digest : Nat) :
    ∃ b1 b2 b3 : List Char,
      (generate_certificate_number cert_class year digest).full_number
        = "MWHWR-"
            ++ (if strTruthy cert_class then cert_class.getD "XX" else "XX")
            ++ "-" ++ yearSuffix year ++ "-"
            ++ (String.mk b1 ++ "-" ++ String.mk b2 ++ "-" ++ String.mk b3)
      ∧ b1.length = 5 ∧ b2.length = 5 ∧ b3.length = 5
      ∧ (∀ c, c ∈ b1 ++ b2 ++ b3 → c ∈ ALPHABET.toList)
      ∧ (yearSuffix year).length = 2
      ∧ (∀ c, c ∈ (yearSuffix year).toList → c.isDigit) := by
  have hlen := tokenChars_length digest
  refine ⟨(tokenChars digest).take 5, ((tokenChars digest).drop 5).take 5,
    ((tokenChars digest).drop 10).take 5, rfl, ?_, ?_, ?_, ?_, ?_, ?_⟩
  · simp only [List.length_take]
    omega
  · simp only [List.length_take, List.length_drop]
    omega
  · simp only [List.length_take, List.length_drop]
    omega
  · intro c hc
    have : c ∈ tokenChars digest := by
      rcases List.mem_append.mp hc with h1 | h2
      · rcases List.mem_append.mp h1 with h3 | h4
        · exact List.mem_of_mem_take h3
        · exact List.mem_of_mem_drop (List.mem_of_mem_take h4)
      · exact List.mem_of_mem_drop (List.mem_of_mem_take h2)
    exact tokenChars_mem digest c this
  · rfl
  · intro c hc
    have h1 : (year % 100) / 10 ≤ 9 := by omega
    have h2 : year % 100 % 10 ≤ 9 := by omega
    have hc2 : c = Char.ofNat (48 + (year % 100) / 10)
        ∨ c = Char.ofNat (48 + year % 100 % 10) := by
      simpa [yearSuffix, String.toList] using hc
    rcases hc2 with h | h <;> rw [h]
    · exact ofNat_digit_isDigit _ h1
    · exact ofNat_digit_isDigit _ h2

/-! ## Applicant-facing update: claims C2 and C6 -/

/-- Claim C2 is refuted by the code: the applicant-facing `PATCH /{id}`
endpoint copies any valid status value from the payload with no assignment
guard and no transition restriction, so the owner of an unassigned, submitted
application moves it to APPROVED themselves.  This theorem evaluates the
endpoint at that failing input: user 7 owns `sampleApp` (`assigned_to` is
null, status SUBMITTED, the caller is not staff) and the update succeeds with
status APPROVED. -/
theorem C2_owner_self_approves_without_assignment :
    update_application sampleApp { status := some "approved" } 7 false true true true
      = .ok { sampleApp with status := .approved } := rfl

/-- Claim C6: moving an application from a non-SUBMITTED status to SUBMITTED
succeeds only when company information, at least one director and at least one
supporting document exist; otherwise it fails with the `IncompleteApplication`
rejection naming the first missing section, raised before the commit so no
field is persisted. -/
theorem C6_completeness_gate (a : Application) (upd : ApplicationUpdate)
    (uid : Nat) (su dirs docs : Bool)
    (hown : su = true ∨ a.user_id = some uid)
    (hstat : upd.status = some "submitted")
    (hold : a.status ≠ .submitted) :
    (update_application a upd uid su false dirs docs
        = .error ⟨400, "Cannot submit: Company Information is missing."⟩)
    ∧ (update_application a upd uid su true false docs
        = .error ⟨400, "Cannot submit: Directors Information is missing."⟩)
    ∧ (update_application a upd uid su true true false
        = .error ⟨400, "Cannot submit: Supporting Documents are missing."⟩)
    ∧ (∃ a2, update_application a upd uid su true true true = .ok a2
        ∧ a2.status = .submitted) := by
  have hownf : ¬ (su = false ∧ a.user_id ≠ some uid) := by
    rcases hown with h | h <;> simp [h]
  have hs : statusOfString "submitted" = some ApplicationStatus.submitted := by
    decide
  refine ⟨?_, ?_, ?_, ?_⟩ <;>
    · unfold update_application
      simp [hownf, hstat, hs, hold]

theorem C6_witness :
    (update_application draftApp { status := some "submitted" } 7 false false true true
        = .error ⟨400, "Cannot submit: Company Information is missing."⟩)
    ∧ (update_application draftApp { status := some "submitted" } 7 false true false true
        = .error ⟨400, "Cannot submit: Directors Information is missing."⟩)
    ∧ (update_application draftApp { status := some "submitted" } 7 false true true false
        = .error ⟨400, "Cannot submit: Supporting Documents are missing."⟩)
    ∧ (∃ a2, update_application draftApp { status := some "submitted" } 7 false true true true
        = .ok a2 ∧ a2.status = .submitted) :=
  C6_completeness_gate draftApp { status := some "submitted" } 7 false true true
    (Or.inr rfl) rfl (by decide)

/-! ## Assignment: claim C4 -/

/-- Claim C4 as written is refuted at this input: the application is held by
admin 1, the caller is super-admin 2, and the plain assign call — the
operation has no override-intent input of any kind — silently reassigns the
application to the caller. -/
theorem C4_counterexample :
    assign_application { sampleApp with assigned_to := some 1 } 2 true
      = .ok { sampleApp with assigned_to := some 2 } := rfl

/-- Claim C4 as amended: assigning an application held by a different admin
fails with `AlreadyAssigned` (HTTP 400) for a non-super-admin and silently
reassigns for a super-admin (no explicit override intent is required); assign
succeeds whenever `assigned_to` is null or already the caller. -/
theorem C4_assign_behaviour (a : Application) (uid : Nat) :
    (∀ other, a.assigned_to = some other → other ≠ 0 → other ≠ uid →
      assign_application a uid false
          = .error ⟨400, "Application is already assigned to another admin."⟩
        ∧ assign_application a uid true = .ok { a with assigned_to := some uid })
    ∧ (a.assigned_to = none →
      ∀ su, assign_application a uid su = .ok { a with assigned_to := some uid })
    ∧ (a.assigned_to = some uid →
      ∀ su, assign_application a uid su = .ok { a with assigned_to := some uid }) := by
  refine ⟨?_, ?_, ?_⟩
  · intro other h h0 hne
    constructor <;>
      · unfold assign_application
        rw [h]
        simp [intTruthy, h0, hne]
  · intro h su
    unfold assign_application
    rw [h]
    simp [intTruthy]
  · intro h su
    unfold assign_application
    rw [h]
    simp [intTruthy]

theorem C4_witness :
    (assign_application { sampleApp with assigned_to := some 1 } 3 false
        = .error ⟨400, "Application is already assigned to another admin."⟩)
    ∧ assign_application sampleApp 3 true
        = .ok { sampleApp with assigned_to := some 3 } :=
  ⟨((C4_assign_behaviour { sampleApp with assigned_to := some 1 } 3).1 1 rfl
      (by decide) (by decide)).1,
   (C4_assign_behaviour sampleApp 3).2.1 rfl true⟩

/-! ## Public verification: claim C7 -/

/-- Claim C7: with a valid verification token, whenever the identifier —
certificate number, security token, or numeric record id alike — resolves to
an application whose status is DRAFT, SUBMITTED, PENDING_PAYMENT or
IN_REVIEW, the public lookup answers the fixed 404 `NotFound` rejection,
disclosing no application data. -/
theorem C7_hidden_statuses_not_found (identifier token : String)
    (store : OTPStore) (now : Nat) (db : List Application)
    (companies : List CompanyInfo) (a : Application)
    (htok : (is_token_valid store token now).1 = true)
    (hfind : db.find? (fun x => matchesIdentifier x identifier) = some a)
    (hstat : a.status ∈ [ApplicationStatus.draft, .submitted, .pending_payment,
      .in_review]) :
    verify_certificate identifier token store now db companies
      = .error ⟨404, "Certificate not found or not valid"⟩ := by
  have hstat2 : a.status = .draft ∨ a.status = .submitted
      ∨ a.status = .pending_payment ∨ a.status = .in_review := by
    simpa using hstat
  have hnot : a.status ∉ allowedVerifyStatuses := by
    rcases hstat2 with h | h | h | h <;> rw [h] <;> decide
  unfold verify_certificate
  rw [htok, hfind]
  simp [hnot]

theorem C7_witness :
    verify_certificate "1" "tok" sampleStore 10 [sampleApp] []
      = .error ⟨404, "Certificate not found or not valid"⟩ :=
  C7_hidden_statuses_not_found "1" "tok" sampleStore 10 [sampleApp] []
    sampleApp rfl (by decide) (by decide)

/-! ## OTP verification: claim C9 -/

theorem lookup_removeKey {α : Type} (k : String) (l : List (String × α)) :
    (removeKey k l).lookup k = none := by
  induction l with
  | nil => rfl
  | cons p rest ih =>
    obtain ⟨k2, v⟩ := p
    unfold removeKey
    by_cases h : k2 = k
    · simp only [h, if_pos rfl]
      exact ih
    · simp only [if_neg h, List.lookup]
      have : (k == k2) = false := by
        simp [Ne.symm h]
      rw [this]
      exact ih

/-- Claim C9: OTP verification answers the 400 `InvalidOrExpiredOtp` rejection
when no code is stored for the phone, when the stored code has expired, and
when the submitted code differs from the stored one; on success the stored
code is deleted (it cannot be redeemed twice) and the fresh opaque token is
returned, mapped to that phone number with a 15-minute validity window. -/
theorem C9_verify_otp_contract (store : OTPStore) (phone code freshToken : String)
    (now : Nat) :
    (store.otps.lookup phone = none →
      verify_otp_code store phone code now freshToken
        = .error ⟨400, "Invalid or expired OTP"⟩)
    ∧ (∀ data, store.otps.lookup phone = some data → now > data.expires_at →
      verify_otp_code store phone code now freshToken
        = .error ⟨400, "Invalid or expired OTP"⟩)
    ∧ (∀ data, store.otps.lookup phone = some data → ¬ now > data.expires_at →
      data.otp ≠ code →
      verify_otp_code store phone code now freshToken
        = .error ⟨400, "Invalid or expired OTP"⟩)
    ∧ (∀ data, store.otps.lookup phone = some data → ¬ now > data.expires_at →
      data.otp = code →
      ∃ store2,
        verify_otp_code store phone code now freshToken = .ok (freshToken, store2)
        ∧ store2.otps.lookup phone = none
        ∧ store2.verified_tokens.lookup freshToken
            = some { phone_number := phone, expires_at := now + 15 }) := by
  refine ⟨?_, ?_, ?_, ?_⟩
  · intro h
    unfold verify_otp_code verify_otp
    rw [h]
  · intro data h hexp
    unfold verify_otp_code verify_otp
    rw [h]
    simp [hexp]
  · intro data h hexp hne
    unfold verify_otp_code verify_otp
    rw [h]
    simp [hexp, hne]
  · intro data h hexp heq
    have hcond : ¬ (data.otp ≠ code) := by simp [heq]
    unfold verify_otp_code verify_otp
    rw [h]
    simp only [if_neg hexp, if_neg hcond]
    exact ⟨_, rfl, lookup_removeKey phone store.otps, by simp [List.lookup]⟩

theorem C9_witness :
    ∃ store2, verify_otp_code sampleStore "0551234567" "123456" 3 "newtok"
        = .ok ("newtok", store2)
      ∧ store2.otps.lookup "0551234567" = none
      ∧ store2.verified_tokens.lookup "newtok"
          = some { phone_number := "0551234567", expires_at := 3 + 15 } :=
  (C9_verify_otp_contract sampleStore "0551234567" "123456" "newtok" 3).2.2.2
    { otp := "123456", expires_at := 5 } (by decide) (by decide) rfl

/-! ## Renewal: claim C10 -/

/-- Claim C10: renewing an APPROVED application owned by the caller appends a
new application row — status DRAFT, `current_step` 4, the same certificate
type, class and owner, and null certificate fields — while every existing row,
the original included, is untouched; renewing a non-APPROVED application
fails and appends nothing. -/
theorem C10_renewal (db : List Application) (appId uid newId freshUid : Nat)
    (companies : List CompanyInfo) (orig : Application)
    (hfind : db.find? (fun a => a.id == appId) = some orig) :
    (orig.user_id = some uid → orig.status = .approved →
      (renew_application db appId uid newId freshUid companies).1
          = db ++ [renewal_draft orig newId uid freshUid]
        ∧ orig ∈ (renew_application db appId uid newId freshUid companies).1
        ∧ (renewal_draft orig newId uid freshUid).status = .draft
        ∧ (renewal_draft orig newId uid freshUid).current_step = 4
        ∧ (renewal_draft orig newId uid freshUid).certificate_type
            = orig.certificate_type
        ∧ (renewal_draft orig newId uid freshUid).certificate_class
            = orig.certificate_class
        ∧ (renewal_draft orig newId uid freshUid).user_id = some uid
        ∧ (renewal_draft orig newId uid freshUid).certificate_number = none
        ∧ (renewal_draft orig newId uid freshUid).security_token = none)
    ∧ (orig.status ≠ .approved →
      (renew_application db appId uid newId freshUid companies).1 = db
        ∧ ∃ e, (renew_application db appId uid newId freshUid companies).2
            = .error e) := by
  have hmem : orig ∈ db := List.mem_of_find?_eq_some hfind
  constructor
  · intro hown happr
    have hdb1 : (renew_application db appId uid newId freshUid companies).1
        = db ++ [renewal_draft orig newId uid freshUid] := by
      unfold renew_application
      rw [hfind]
      simp only [hown, happr]
      cases companies.find? (fun c => c.application_id == orig.id) <;> simp
    refine ⟨hdb1, ?_, rfl, rfl, rfl, rfl, rfl, rfl, rfl⟩
    rw [hdb1]
    exact List.mem_append_left _ hmem
  · intro hne
    unfold renew_application
    rw [hfind]
    by_cases hown : orig.user_id = some uid
    · simp [hown, hne]
    · simp [hown]

theorem C10_witness :
    (renew_application [approvedApp] 42 7 43 99 []).1
      = [approvedApp] ++ [renewal_draft approvedApp 43 7 99] :=
  ((C10_renewal [approvedApp] 42 7 43 99 [] approvedApp (by decide)).1
    rfl rfl).1


/-! ## Reachability support for the C1 hypotheses

Every writer of `certificate_number` in the embedded operations either leaves
it untouched or sets a non-empty number and a non-null `issued_date` in the
same write (`approve_establishes_issuance`), a non-approving status update
copies both fields verbatim (`non_approved_status_update`), and every freshly
created row starts with both null; so in every state the system can reach, a
truthy `certificate_number` comes with `issued_date ≠ none`, which is the
hypothesis pair of the C1 theorem. -/

theorem full_number_ne_empty (cert_class : Option String) (year digest : Nat) :
    (generate_certificate_number cert_class year digest).full_number ≠ "" := by
  intro hc
  have hdata : (generate_certificate_number cert_class year digest).full_number.data
      = [] := congrArg String.data hc
  rw [show (generate_certificate_number cert_class year digest).full_number.data
      = 'M' :: _ from rfl] at hdata
  exact List.noConfusion hdata

theorem approve_establishes_issuance (a : Application)
    (uid now year digest freshUid : Nat)
    (hassigned : a.assigned_to = some uid) (huid : uid ≠ 0)
    (hstatus : a.status ∈ [ApplicationStatus.submitted, .in_review, .suspended]) :
    ∃ a2, update_application_status a .approved uid now year digest freshUid
        = .ok a2
      ∧ strTruthy a2.certificate_number = true
      ∧ a2.issued_date ≠ none := by
  by_cases hi : a.issued_date = none <;>
    by_cases hu2 : a.internal_uid = none <;>
    by_cases hcert : strTruthy a.certificate_number = false <;>
  · unfold update_application_status
    rw [hassigned]
    simp [intTruthy, huid, hstatus, hi, hu2, hcert] <;>
      simp [strTruthy, full_number_ne_empty, hi]

theorem non_approved_status_update (a : Application) (st : ApplicationStatus)
    (uid now year digest freshUid : Nat)
    (hassigned : a.assigned_to = some uid) (huid : uid ≠ 0)
    (hst : st ≠ .approved) :
    update_application_status a st uid now year digest freshUid
      = .ok { a with status := st } := by
  unfold update_application_status
  rw [hassigned]
  simp [intTruthy, huid, hst]
